import Mathlib

/-!
Verification of the sale-transaction core of a retail point-of-sale backend.

The definitions below are a shallow embedding of `createSale`, `updateSale`
and `deleteSale` from `src/controllers/ExternalSourceController.js`, together
with the data model of `src/model/Product.js`, `src/model/Inventory.js`,
`src/model/Sale.js` and the sourced-item schema.

Modelling conventions:
* JavaScript numbers are modelled as rationals (`ℚ`).
* Optional / possibly-absent document fields are `Option` values; JavaScript
  truthiness of a numeric field (`x && …`, `x || 0`) is modelled explicitly
  (`qTruthy`, `Option.getD 0`).
* The MongoDB session is modelled by threading a working copy of the store
  through the transaction body; `abortTransaction` is modelled by returning
  the original store unchanged on any error.  Reads issued *without* the
  session (`Product.findById`) read the committed snapshot; reads issued
  *with* the session (`Inventory.findOne(...).session(session)`) read the
  working copy.
* The unique index on `saleNo` (`src/model/Sale.js`) is modelled as a
  duplicate check performed when the sale document is inserted.
-/

deriving instance DecidableEq for Except

namespace POS

/-- A product variant (`variantSchema`): a priced sub-SKU. -/
structure Variant where
  price : ℚ
  deriving DecidableEq

/-- A catalog product (`productSchema`).  `price`, `stock` and `taxRate` may be
absent on a document (the repository carries two product schemas, one without
a top-level `price`/`stock`), hence `Option`. -/
structure Product where
  pid : Nat
  name : String
  price : Option ℚ
  stock : Option ℚ
  taxRate : Option ℚ
  isActive : Bool
  variants : List Variant
  deriving DecidableEq

/-- A per-(product, store) inventory record (`inventorySchema`). -/
structure Inventory where
  productId : Nat
  storeId : Nat
  quantity : ℚ
  deriving DecidableEq

/-- An embedded payment allocation (`paymentSchema`). -/
structure Payment where
  method : String
  amount : ℚ
  deriving DecidableEq

/-- An embedded sale line item (`saleItemSchema` plus the `isSourced` /
`sourcingCost` fields pushed by `createSale`). -/
structure SaleItem where
  productId : Nat
  variantId : Option Nat
  productName : String
  quantity : ℚ
  unitPrice : ℚ
  discount : ℚ
  tax : ℚ
  total : ℚ
  isSourced : Bool
  sourcingCost : ℚ
  deriving DecidableEq

/-- A sale document (`saleSchema`). -/
structure Sale where
  saleId : Nat
  storeId : Nat
  saleNo : String
  items : List SaleItem
  subtotal : ℚ
  discount : ℚ
  tax : ℚ
  total : ℚ
  payments : List Payment
  customerId : Option Nat
  cashierId : Nat
  status : String
  notes : Option String
  deriving DecidableEq

/-- A sourced-item document (`sourcedItemSchema`). -/
structure SourcedItemRec where
  storeId : Nat
  saleId : Nat
  productId : Nat
  productName : String
  quantity : ℚ
  sourcingCost : ℚ
  salePrice : ℚ
  profit : ℚ
  sourcedBy : Nat
  deriving DecidableEq

/-- A staged sourced-item record before the sale identifier is known
(`sourcedItemsToCreate` entries in `createSale`). -/
structure PendingSourced where
  storeId : Nat
  productId : Nat
  productName : String
  quantity : ℚ
  sourcingCost : ℚ
  salePrice : ℚ
  profit : ℚ
  sourcedBy : Nat
  deriving DecidableEq

/-- A request line item (`req.body.items[i]`). -/
structure ReqItem where
  productId : Nat
  variantId : Option Nat
  quantity : ℚ
  discount : Option ℚ
  isSourced : Bool
  sourcingCost : Option ℚ
  price : Option ℚ
  deriving DecidableEq

/-- A create-sale request body (`req.body`). -/
structure SaleReq where
  storeId : Option Nat
  items : List ReqItem
  payments : List Payment
  customerId : Option Nat
  deriving DecidableEq

/-- The persistent store: the four collections touched by the sale core,
plus a fresh-identifier counter standing for ObjectId generation. -/
structure DB where
  products : List Product
  inventories : List Inventory
  sales : List Sale
  sourcedItems : List SourcedItemRec
  nextId : Nat
  deriving DecidableEq

/-- The errors thrown by `createSale`, one constructor per `throw` site, with
exactly the data interpolated into the corresponding message string. -/
inductive SaleErr where
  | storeRequired
  | itemsRequired
  | productNotFound (productId : Nat)
  | productNotActive (name : String)
  | priceNotFound (name : String)
  | insufficientStock (name : String) (available required : ℚ)
  | insufficientInventory (name : String)
  | duplicateSaleNo (saleNo : String)
  deriving DecidableEq

/-- JavaScript truthiness of an optional numeric field: present and nonzero. -/
def qTruthy : Option ℚ → Bool
  | none => false
  | some q => q != 0

/-- JavaScript truthiness of an optional string field: present and nonempty. -/
def strTruthy : Option String → Bool
  | none => false
  | some s => s != ""

/-- `Product.findById` over the committed snapshot. -/
def findProduct (ps : List Product) (productId : Nat) : Option Product :=
  ps.find? (fun p => p.pid == productId)

/-- `product.save`: replace the document with the same identifier. -/
def saveProduct (ps : List Product) (p : Product) : List Product :=
  ps.map (fun q => if q.pid == p.pid then p else q)

/-- `Inventory.findOne({ productId, storeId })` over the session view. -/
def findInventory (invs : List Inventory) (productId storeId : Nat) : Option Inventory :=
  invs.find? (fun i => i.productId == productId && i.storeId == storeId)

/-- `inventory.save`: replace the record with the same (product, store) key. -/
def saveInventory (invs : List Inventory) (inv : Inventory) : List Inventory :=
  invs.map (fun j => if j.productId == inv.productId && j.storeId == inv.storeId then inv else j)

/-- `Sale.findById` by the modelled identifier. -/
def findSale (sales : List Sale) (saleId : Nat) : Option Sale :=
  sales.find? (fun s => s.saleId == saleId)

/-- `sale.save` outside a session: replace the document with the same id. -/
def saveSale (sales : List Sale) (s : Sale) : List Sale :=
  sales.map (fun t => if t.saleId == s.saleId then s else t)

/-- Unit-price resolution in `createSale`:
`if (isSourced && item.price) { unitPrice = item.price }
 else if (item.variantId !== undefined && product.variants && product.variants.length > 0)
   { unitPrice = product.variants[item.variantId]?.price || 0 }
 else { unitPrice = product.price || 0 }`. -/
def resolveUnitPrice (product : Product) (item : ReqItem) : ℚ :=
  if item.isSourced && qTruthy item.price then
    item.price.getD 0
  else if item.variantId.isSome && !product.variants.isEmpty then
    ((item.variantId.bind (fun vid => product.variants[vid]?)).map Variant.price).getD 0
  else
    product.price.getD 0

/-- The product-counter update of one line:
`if (!isSourced && product.stock !== undefined) { if (product.stock < item.quantity) throw …;
 product.stock -= item.quantity; await product.save({ session }); }`.
`product` is the document read from the committed snapshot. -/
def stockStep (product : Product) (item : ReqItem) (work : List Product) :
    Except SaleErr (List Product) :=
  if item.isSourced then .ok work
  else
    match product.stock with
    | none => .ok work
    | some s =>
      if s < item.quantity then
        .error (.insufficientStock product.name s item.quantity)
      else
        .ok (saveProduct work { product with stock := some (s - item.quantity) })

/-- The inventory update of one line:
`if (!isSourced) { const inventory = await Inventory.findOne({...}).session(session);
 if (inventory) { if (inventory.quantity < item.quantity) throw …;
 inventory.quantity -= item.quantity; await inventory.save({ session }); } }`. -/
def invStep (product : Product) (item : ReqItem) (storeId : Nat)
    (work : List Inventory) : Except SaleErr (List Inventory) :=
  if item.isSourced then .ok work
  else
    match findInventory work item.productId storeId with
    | none => .ok work
    | some inv =>
      if inv.quantity < item.quantity then
        .error (.insufficientInventory product.name)
      else
        .ok (saveInventory work { inv with quantity := inv.quantity - item.quantity })

/-- The accumulator threaded through the `for (const item of items)` loop:
the session's staged writes plus the running totals and staged documents. -/
structure TxAcc where
  workProducts : List Product
  workInventories : List Inventory
  subtotal : ℚ
  totalDiscount : ℚ
  taxTotal : ℚ
  saleItems : List SaleItem
  sourcedToCreate : List PendingSourced
  deriving DecidableEq

/-- One iteration of the item loop of `createSale`. -/
def processItem (dbProducts : List Product) (storeId userId : Nat)
    (acc : TxAcc) (item : ReqItem) : Except SaleErr TxAcc :=
  match findProduct dbProducts item.productId with
  | none => .error (.productNotFound item.productId)
  | some product =>
    if product.isActive = false then .error (.productNotActive product.name)
    else
      let sourcingCost := item.sourcingCost.getD 0
      let unitPrice := resolveUnitPrice product item
      if unitPrice = 0 then .error (.priceNotFound product.name)
      else
        let taxRate := product.taxRate.getD 0
        let itemSubtotal := unitPrice * item.quantity
        let itemDiscount := item.discount.getD 0
        let itemTax := (itemSubtotal - itemDiscount) * taxRate / 100
        let itemTotal := itemSubtotal - itemDiscount + itemTax
        let saleItem : SaleItem :=
          { productId := item.productId, variantId := item.variantId,
            productName := product.name, quantity := item.quantity,
            unitPrice := unitPrice, discount := itemDiscount, tax := itemTax,
            total := itemTotal, isSourced := item.isSourced,
            sourcingCost := sourcingCost }
        let sourced2 :=
          if item.isSourced then
            acc.sourcedToCreate ++
              [{ storeId := storeId, productId := item.productId,
                 productName := product.name, quantity := item.quantity,
                 sourcingCost := sourcingCost, salePrice := unitPrice,
                 profit := (unitPrice - sourcingCost) * item.quantity,
                 sourcedBy := userId }]
          else acc.sourcedToCreate
        match stockStep product item acc.workProducts with
        | .error e => .error e
        | .ok wp =>
          match invStep product item storeId acc.workInventories with
          | .error e => .error e
          | .ok wi =>
            .ok { workProducts := wp, workInventories := wi,
                  subtotal := acc.subtotal + itemSubtotal,
                  totalDiscount := acc.totalDiscount + itemDiscount,
                  taxTotal := acc.taxTotal + itemTax,
                  saleItems := acc.saleItems ++ [saleItem],
                  sourcedToCreate := sourced2 }

/-- The full item loop of `createSale`. -/
def processItems (dbProducts : List Product) (storeId userId : Nat)
    (acc : TxAcc) : List ReqItem → Except SaleErr TxAcc
  | [] => .ok acc
  | item :: rest =>
    match processItem dbProducts storeId userId acc item with
    | .error e => .error e
    | .ok acc2 => processItems dbProducts storeId userId acc2 rest

/-- The initial loop state: the session view starts at the committed store,
all totals at zero, no staged documents. -/
def initAcc (db : DB) : TxAcc :=
  { workProducts := db.products, workInventories := db.inventories,
    subtotal := 0, totalDiscount := 0, taxTotal := 0,
    saleItems := [], sourcedToCreate := [] }

/-- Sale-number generation: `` `SALE-${Date.now()}-${saleCount}` `` where
`saleCount = await Sale.countDocuments()`. -/
def mkSaleNo (now count : Nat) : String :=
  "SALE-" ++ toString now ++ "-" ++ toString count

/-- Attach the parent sale's identifier to a staged sourced-item record
(the `sourcedItemsToCreate.map(si => ({...si, saleId: sale._id}))` step). -/
def mkSourcedDoc (saleId : Nat) (p : PendingSourced) : SourcedItemRec :=
  { storeId := p.storeId, saleId := saleId, productId := p.productId,
    productName := p.productName, quantity := p.quantity,
    sourcingCost := p.sourcingCost, salePrice := p.salePrice,
    profit := p.profit, sourcedBy := p.sourcedBy }

/-- The body of the `createSale` transaction (everything between
`startTransaction` and `commitTransaction`).  On success it returns the
committed store together with the inserted sale document. -/
def createSaleTx (db : DB) (req : SaleReq) (userId now : Nat) :
    Except SaleErr (DB × Sale) :=
  match req.storeId with
  | none => .error .storeRequired
  | some storeId =>
    if req.items.isEmpty then .error .itemsRequired
    else
      match processItems db.products storeId userId (initAcc db) req.items with
      | .error e => .error e
      | .ok acc =>
        let saleNo := mkSaleNo now db.sales.length
        let sale : Sale :=
          { saleId := db.nextId, storeId := storeId, saleNo := saleNo,
            items := acc.saleItems, subtotal := acc.subtotal,
            discount := acc.totalDiscount, tax := acc.taxTotal,
            total := acc.subtotal - acc.totalDiscount + acc.taxTotal,
            payments := req.payments, customerId := req.customerId,
            cashierId := userId, status := "completed", notes := none }
        if db.sales.any (fun s => s.saleNo == saleNo) then
          .error (.duplicateSaleNo saleNo)
        else
          .ok ({ products := acc.workProducts,
                 inventories := acc.workInventories,
                 sales := db.sales ++ [sale],
                 sourcedItems :=
                   db.sourcedItems ++ acc.sourcedToCreate.map (mkSourcedDoc sale.saleId),
                 nextId := db.nextId + 1 }, sale)

/-- `createSale`: run the transaction body; on any error abort the
transaction, leaving the committed store exactly as it was. -/
def createSale (db : DB) (req : SaleReq) (userId now : Nat) :
    DB × Except SaleErr Sale :=
  match createSaleTx db req userId now with
  | .ok (db2, sale) => (db2, .ok sale)
  | .error e => (db, .error e)

/-- The status enumeration of `saleSchema` and the whitelist in `updateSale`:
`["completed", "refunded", "partially_refunded"]`. -/
def allowedStatuses : List String :=
  ["completed", "refunded", "partially_refunded"]

/-- `updateSale`: set `notes` when supplied; set `status` when it is truthy
and one of the allowed statuses; save.  Returns `none` when no sale with the
given identifier exists (the 404 path). -/
def updateSale (db : DB) (saleId : Nat) (notes status : Option String) :
    DB × Option Sale :=
  match findSale db.sales saleId with
  | none => (db, none)
  | some sale =>
    let sale1 :=
      match notes with
      | some n => { sale with notes := some n }
      | none => sale
    let sale2 :=
      if strTruthy status && allowedStatuses.contains (status.getD "") then
        { sale1 with status := status.getD "" }
      else sale1
    ({ db with sales := saveSale db.sales sale2 }, some sale2)

/-- `deleteSale`: soft delete — set status to `"refunded"` and append
`" [CANCELLED]"` to the notes; save. -/
def deleteSale (db : DB) (saleId : Nat) : DB × Option Sale :=
  match findSale db.sales saleId with
  | none => (db, none)
  | some sale =>
    let sale2 :=
      { sale with
          status := "refunded",
          notes := some ((sale.notes.getD "") ++ " [CANCELLED]") }
    ({ db with sales := saveSale db.sales sale2 }, some sale2)

/-! ### Predicates used by the claims -/

/-- Non-negativity of the two stock ledgers: every product's `stock` counter
(when present) and every inventory record's `quantity` is non-negative. -/
def dbNonneg (db : DB) : Prop :=
  (∀ p ∈ db.products, 0 ≤ p.stock.getD 0) ∧ (∀ i ∈ db.inventories, 0 ≤ i.quantity)

instance (db : DB) : Decidable (dbNonneg db) := by
  unfold dbNonneg; infer_instance

/-- Every persisted sale's status is one of the schema's enumerated statuses. -/
def statusInv (db : DB) : Prop :=
  ∀ s ∈ db.sales, s.status ∈ allowedStatuses

/-- The relation between a request line and the sale line recorded for it:
the recorded price is the resolved (nonzero) unit price and the amounts obey
the per-line formulas of `createSale`, with the tax rate read from the
product (defaulting to 0 when absent). -/
def lineRel (dbProducts : List Product) (ri : ReqItem) (si : SaleItem) : Prop :=
  ∃ product, findProduct dbProducts ri.productId = some product ∧
    si.productId = ri.productId ∧
    si.quantity = ri.quantity ∧
    si.unitPrice = resolveUnitPrice product ri ∧
    si.unitPrice ≠ 0 ∧
    si.discount = ri.discount.getD 0 ∧
    si.tax = (si.unitPrice * si.quantity - si.discount) * product.taxRate.getD 0 / 100 ∧
    si.total = si.unitPrice * si.quantity - si.discount + si.tax

/-- Modelled from the spec (claim C4's resolution order, used only to refute
it): the unit price is the client-supplied override when the line is flagged
sourced and an override is present; otherwise the selected variant's price
when the variant selector resolves to an existing variant; otherwise the
product's base price (`none` when the product has no base price). -/
def specResolvedPrice (product : Product) (item : ReqItem) : Option ℚ :=
  if item.isSourced && item.price.isSome then item.price
  else
    match item.variantId.bind (fun vid => product.variants[vid]?) with
    | some v => some v.price
    | none => product.price

/-! ### Concrete stores and requests used by witnesses and counterexamples -/

/-- The spec's happy-path product: price 20, stock 10, tax rate 5%, active. -/
def wProduct : Product :=
  { pid := 1, name := "P", price := some 20, stock := some 10,
    taxRate := some 5, isActive := true, variants := [] }

/-- A store holding only `wProduct`, with no sales yet. -/
def wDb : DB :=
  { products := [wProduct], inventories := [], sales := [], sourcedItems := [],
    nextId := 0 }

/-- A plain cart line: 3 units of product 1, nothing optional supplied. -/
def wItem : ReqItem :=
  { productId := 1, variantId := none, quantity := 3, discount := none,
    isSourced := false, sourcingCost := none, price := none }

/-- The happy-path request: store 1, cart `{P × 3}`. -/
def wReq : SaleReq :=
  { storeId := some 1, items := [wItem], payments := [], customerId := none }

/-- A request with no store reference. -/
def wReqNoStore : SaleReq :=
  { storeId := none, items := [wItem], payments := [], customerId := none }

/-- The sale line recorded for the happy-path request. -/
def wSaleItem : SaleItem :=
  { productId := 1, variantId := none, productName := "P", quantity := 3,
    unitPrice := 20, discount := 0, tax := 3, total := 63,
    isSourced := false, sourcingCost := 0 }

/-- The sale committed for the happy-path request (run at time 5, cashier 1). -/
def wSale : Sale :=
  { saleId := 0, storeId := 1, saleNo := "SALE-5-0", items := [wSaleItem],
    subtotal := 60, discount := 0, tax := 3, total := 63, payments := [],
    customerId := none, cashierId := 1, status := "completed", notes := none }

/-- The store after the happy-path sale: stock decremented to 7. -/
def wDb2 : DB :=
  { products := [{ wProduct with stock := some 7 }], inventories := [],
    sales := [wSale], sourcedItems := [], nextId := 1 }

/-- The sale line recorded for a second happy-path request run against
`wDb2` at the same instant (cashier 2). -/
def wSale2 : Sale :=
  { saleId := 1, storeId := 1, saleNo := "SALE-5-1", items := [wSaleItem],
    subtotal := 60, discount := 0, tax := 3, total := 63, payments := [],
    customerId := none, cashierId := 2, status := "completed", notes := none }

/-- The store after the second happy-path sale: stock decremented to 4. -/
def wDb3 : DB :=
  { products := [{ wProduct with stock := some 4 }], inventories := [],
    sales := [wSale, wSale2], sourcedItems := [], nextId := 2 }

/-- A sourced cart line: 2 units at override price 15, sourcing cost 8. -/
def sItem : ReqItem :=
  { productId := 1, variantId := none, quantity := 2, discount := none,
    isSourced := true, sourcingCost := some 8, price := some 15 }

/-- The sourced-scenario request. -/
def sReq : SaleReq :=
  { storeId := some 1, items := [sItem], payments := [], customerId := none }

/-- The sale line recorded for the sourced request (tax 30 × 5% = 3/2). -/
def sSaleItem : SaleItem :=
  { productId := 1, variantId := none, productName := "P", quantity := 2,
    unitPrice := 15, discount := 0, tax := 3 / 2, total := 63 / 2,
    isSourced := true, sourcingCost := 8 }

/-- The sale committed for the sourced request (run at time 5, cashier 9). -/
def sSale : Sale :=
  { saleId := 0, storeId := 1, saleNo := "SALE-5-0", items := [sSaleItem],
    subtotal := 30, discount := 0, tax := 3 / 2, total := 63 / 2, payments := [],
    customerId := none, cashierId := 9, status := "completed", notes := none }

/-- The sourced-item record created for the sourced request:
profit (15 − 8) × 2 = 14. -/
def sSourcedRec : SourcedItemRec :=
  { storeId := 1, saleId := 0, productId := 1, productName := "P",
    quantity := 2, sourcingCost := 8, salePrice := 15, profit := 14,
    sourcedBy := 9 }

/-- The store after the sourced sale: stock untouched, one sourced record. -/
def sDb2 : DB :=
  { products := [wProduct], inventories := [], sales := [sSale],
    sourcedItems := [sSourcedRec], nextId := 1 }

/-- `wProduct` with stock 2 (the spec's insufficient-stock scenario). -/
def lowDb : DB :=
  { products := [{ wProduct with stock := some 2 }], inventories := [],
    sales := [], sourcedItems := [], nextId := 0 }

/-- A request for 5 units of product 1. -/
def fiveReq : SaleReq :=
  { storeId := some 1, items := [{ wItem with quantity := 5 }], payments := [],
    customerId := none }

/-- A product tracked only in per-store inventory: no `stock` counter. -/
def invProduct : Product :=
  { pid := 1, name := "P", price := some 10, stock := none, taxRate := none,
    isActive := true, variants := [] }

/-- A store where product 1 has no stock counter but an inventory record
with quantity 2 at store 1. -/
def invDb : DB :=
  { products := [invProduct],
    inventories := [{ productId := 1, storeId := 1, quantity := 2 }],
    sales := [], sourcedItems := [], nextId := 0 }

/-- An active product with no base price at all. -/
def npProduct : Product :=
  { pid := 1, name := "P", price := none, stock := some 5, taxRate := none,
    isActive := true, variants := [] }

/-- A store holding only `npProduct`. -/
def npDb : DB :=
  { products := [npProduct], inventories := [], sales := [], sourcedItems := [],
    nextId := 0 }

/-- A product with one variant (price 10) and base price 20. -/
def varProduct : Product :=
  { pid := 1, name := "P", price := some 20, stock := some 10, taxRate := none,
    isActive := true, variants := [{ price := 10 }] }

/-- A store holding only `varProduct`. -/
def varDb : DB :=
  { products := [varProduct], inventories := [], sales := [], sourcedItems := [],
    nextId := 0 }

/-- A cart line whose variant selector (index 1) resolves to no variant. -/
def varItem : ReqItem :=
  { productId := 1, variantId := some 1, quantity := 1, discount := none,
    isSourced := false, sourcingCost := none, price := none }

/-- The request carrying `varItem`. -/
def varReq : SaleReq :=
  { storeId := some 1, items := [varItem], payments := [], customerId := none }

/-- A request whose single line has quantity 0 (a non-positive quantity). -/
def zeroReq : SaleReq :=
  { storeId := some 1, items := [{ wItem with quantity := 0 }], payments := [],
    customerId := none }

/-- The sale committed for the zero-quantity request: the cart is accepted
and a zero-amount sale is persisted. -/
def zeroSale : Sale :=
  { saleId := 0, storeId := 1, saleNo := "SALE-5-0",
    items := [{ wSaleItem with quantity := 0, unitPrice := 20, tax := 0, total := 0 }],
    subtotal := 0, discount := 0, tax := 0, total := 0, payments := [],
    customerId := none, cashierId := 1, status := "completed", notes := none }

/-- The store after the zero-quantity sale commits. -/
def zeroDb2 : DB :=
  { products := [wProduct], inventories := [], sales := [zeroSale],
    sourcedItems := [], nextId := 1 }

/-- A store holding one already-refunded sale. -/
def refDb : DB :=
  { products := [wProduct], inventories := [],
    sales := [{ wSale with status := "refunded" }], sourcedItems := [],
    nextId := 1 }

/-- The refunded sale of `refDb` after `updateSale` sets it back to
`"completed"`. -/
def refSale2 : Sale :=
  { wSale with status := "completed" }

/-- The store `refDb` after the refunded sale is set back to completed. -/
def refDb2 : DB :=
  { refDb with sales := [refSale2] }

/-- A cash payment of 1 (deliberately unequal to the happy-path total 63). -/
def wPayment : Payment :=
  { method := "cash", amount := 1 }

/-- The happy-path request carrying the single (insufficient) payment. -/
def wReqPay : SaleReq :=
  { wReq with payments := [wPayment] }

/-- The sale committed for `wReqPay`: identical to `wSale` but for the
recorded payments. -/
def wSalePay : Sale :=
  { wSale with payments := [wPayment] }

/-- The store after the `wReqPay` sale commits. -/
def wDb2Pay : DB :=
  { wDb2 with sales := [wSalePay] }

/-! ### Lemmas about the save / step operations -/

theorem mem_saveProduct {ps : List Product} {p q : Product}
    (hq : q ∈ saveProduct ps p) : q = p ∨ q ∈ ps := by
  unfold saveProduct at hq
  rcases List.mem_map.mp hq with ⟨r, hr, hrq⟩
  by_cases h : (r.pid == p.pid) = true
  · left
    rw [← hrq]
    simp [h]
  · right
    rw [← hrq]
    simp only [if_neg h]
    exact hr

theorem mem_saveInventory {invs : List Inventory} {inv j : Inventory}
    (hj : j ∈ saveInventory invs inv) : j = inv ∨ j ∈ invs := by
  unfold saveInventory at hj
  rcases List.mem_map.mp hj with ⟨r, hr, hrj⟩
  by_cases h : (r.productId == inv.productId && r.storeId == inv.storeId) = true
  · left
    rw [← hrj]
    simp [h]
  · right
    rw [← hrj]
    simp only [if_neg h]
    exact hr

theorem mem_saveSale {sales : List Sale} {s t : Sale}
    (ht : t ∈ saveSale sales s) : t = s ∨ t ∈ sales := by
  unfold saveSale at ht
  rcases List.mem_map.mp ht with ⟨r, hr, hrt⟩
  by_cases h : (r.saleId == s.saleId) = true
  · left
    rw [← hrt]
    simp [h]
  · right
    rw [← hrt]
    simp only [if_neg h]
    exact hr

theorem stockStep_ok_nonneg {product : Product} {item : ReqItem}
    {work wp : List Product} (h : stockStep product item work = .ok wp)
    (hw : ∀ x ∈ work, 0 ≤ x.stock.getD 0) : ∀ x ∈ wp, 0 ≤ x.stock.getD 0 := by
  unfold stockStep at h
  split at h
  · cases h
    exact hw
  · split at h
    · cases h
      exact hw
    · next s hstock =>
      split at h
      · cases h
      · next hguard =>
        cases h
        intro x hx
        rcases mem_saveProduct hx with rfl | hx2
        · simpa using sub_nonneg.mpr (not_lt.mp hguard)
        · exact hw x hx2

theorem invStep_ok_nonneg {product : Product} {item : ReqItem} {storeId : Nat}
    {work wi : List Inventory} (h : invStep product item storeId work = .ok wi)
    (hw : ∀ x ∈ work, 0 ≤ x.quantity) : ∀ x ∈ wi, 0 ≤ x.quantity := by
  unfold invStep at h
  split at h
  · cases h
    exact hw
  · split at h
    · cases h
      exact hw
    · next inv hinv =>
      split at h
      · cases h
      · next hguard =>
        cases h
        intro x hx
        rcases mem_saveInventory hx with rfl | hx2
        · simpa using sub_nonneg.mpr (not_lt.mp hguard)
        · exact hw x hx2

theorem processItem_nonneg {dbP : List Product} {storeId userId : Nat}
    {acc acc2 : TxAcc} {item : ReqItem}
    (h : processItem dbP storeId userId acc item = .ok acc2)
    (hp : ∀ x ∈ acc.workProducts, 0 ≤ x.stock.getD 0)
    (hi : ∀ x ∈ acc.workInventories, 0 ≤ x.quantity) :
    (∀ x ∈ acc2.workProducts, 0 ≤ x.stock.getD 0) ∧
    (∀ x ∈ acc2.workInventories, 0 ≤ x.quantity) := by
  simp only [processItem] at h
  split at h
  · cases h
  · split at h
    · cases h
    · split at h
      · cases h
      · split at h
        · cases h
        · next wp hwp =>
          split at h
          · cases h
          · next wi hwi =>
            cases h
            exact ⟨stockStep_ok_nonneg hwp hp, invStep_ok_nonneg hwi hi⟩

theorem processItems_nonneg {dbP : List Product} {storeId userId : Nat} :
    ∀ {items : List ReqItem} {acc acc2 : TxAcc},
      processItems dbP storeId userId acc items = .ok acc2 →
      (∀ x ∈ acc.workProducts, 0 ≤ x.stock.getD 0) →
      (∀ x ∈ acc.workInventories, 0 ≤ x.quantity) →
      (∀ x ∈ acc2.workProducts, 0 ≤ x.stock.getD 0) ∧
      (∀ x ∈ acc2.workInventories, 0 ≤ x.quantity)
  | [], acc, acc2, h, hp, hi => by
    cases h
    exact ⟨hp, hi⟩
  | item :: rest, acc, acc2, h, hp, hi => by
    unfold processItems at h
    split at h
    · cases h
    · next acc1 heq =>
      obtain ⟨hp1, hi1⟩ := processItem_nonneg heq hp hi
      exact processItems_nonneg h hp1 hi1

/-! ### Characterisation of a successful transaction -/

theorem forall2_mem_right {α β : Type} {R : α → β → Prop} :
    ∀ {l1 : List α} {l2 : List β}, List.Forall₂ R l1 l2 → ∀ b ∈ l2, ∃ a ∈ l1, R a b
  | _, _, List.Forall₂.nil, b, hb => absurd hb (List.not_mem_nil b)
  | _, _, List.Forall₂.cons h hs, b, hb => by
    rcases List.mem_cons.mp hb with rfl | hb2
    · exact ⟨_, List.mem_cons_self _ _, h⟩
    · obtain ⟨a, ha, hr⟩ := forall2_mem_right hs b hb2
      exact ⟨a, List.mem_cons_of_mem _ ha, hr⟩

theorem processItem_ok_spec {dbP : List Product} {storeId userId : Nat}
    {acc acc2 : TxAcc} {item : ReqItem}
    (h : processItem dbP storeId userId acc item = .ok acc2) :
    ∃ si, acc2.saleItems = acc.saleItems ++ [si] ∧
      lineRel dbP item si ∧
      acc2.subtotal = acc.subtotal + si.unitPrice * si.quantity ∧
      acc2.totalDiscount = acc.totalDiscount + si.discount ∧
      acc2.taxTotal = acc.taxTotal + si.tax := by
  simp only [processItem] at h
  split at h
  · cases h
  · next product hfind =>
    split at h
    · cases h
    · next hactive =>
      split at h
      · cases h
      · next hprice =>
        split at h
        · cases h
        · next wp hwp =>
          split at h
          · cases h
          · next wi hwi =>
            cases h
            refine ⟨_, rfl, ⟨product, hfind, rfl, rfl, rfl, hprice, rfl, rfl, rfl⟩,
              rfl, rfl, rfl⟩

theorem processItems_ok_spec {dbP : List Product} {storeId userId : Nat} :
    ∀ {items : List ReqItem} {acc acc2 : TxAcc},
      processItems dbP storeId userId acc items = .ok acc2 →
      ∃ news, acc2.saleItems = acc.saleItems ++ news ∧
        List.Forall₂ (lineRel dbP) items news ∧
        acc2.subtotal = acc.subtotal + (news.map (fun si => si.unitPrice * si.quantity)).sum ∧
        acc2.totalDiscount = acc.totalDiscount + (news.map SaleItem.discount).sum ∧
        acc2.taxTotal = acc.taxTotal + (news.map SaleItem.tax).sum
  | [], acc, acc2, h => by
    cases h
    exact ⟨[], by simp, List.Forall₂.nil, by simp, by simp, by simp⟩
  | item :: rest, acc, acc2, h => by
    unfold processItems at h
    split at h
    · cases h
    · next acc1 heq =>
      obtain ⟨si, hsi, hrel, hsub, hdisc, htax⟩ := processItem_ok_spec heq
      obtain ⟨news, hnews, hrel2, hsub2, hdisc2, htax2⟩ := processItems_ok_spec h
      refine ⟨si :: news, ?_, List.Forall₂.cons hrel hrel2, ?_, ?_, ?_⟩
      · rw [hnews, hsi, List.append_assoc]
        rfl
      · rw [hsub2, hsub]
        simp [add_assoc]
      · rw [hdisc2, hdisc]
        simp [add_assoc]
      · rw [htax2, htax]
        simp [add_assoc]

theorem processItem_sourced {dbP : List Product} {storeId userId : Nat}
    {acc acc2 : TxAcc} {item : ReqItem} (hs : item.isSourced = true)
    (h : processItem dbP storeId userId acc item = .ok acc2) :
    acc2.workProducts = acc.workProducts ∧
    acc2.workInventories = acc.workInventories ∧
    ∃ p : PendingSourced, acc2.sourcedToCreate = acc.sourcedToCreate ++ [p] ∧
      p.profit = (p.salePrice - p.sourcingCost) * p.quantity := by
  simp only [processItem] at h
  split at h
  · cases h
  · next product hfind =>
    split at h
    · cases h
    · split at h
      · cases h
      · split at h
        · cases h
        · next wp hwp =>
          split at h
          · cases h
          · next wi hwi =>
            cases h
            simp only [stockStep, hs, if_true] at hwp
            simp only [invStep, hs, if_true] at hwi
            cases hwp
            cases hwi
            refine ⟨rfl, rfl,
              { storeId := storeId, productId := item.productId,
                productName := product.name, quantity := item.quantity,
                sourcingCost := item.sourcingCost.getD 0,
                salePrice := resolveUnitPrice product item,
                profit := (resolveUnitPrice product item - item.sourcingCost.getD 0) *
                  item.quantity,
                sourcedBy := userId }, ?_, rfl⟩
            simp [hs]

theorem processItems_sourced {dbP : List Product} {storeId userId : Nat} :
    ∀ {items : List ReqItem} {acc acc2 : TxAcc},
      (∀ it ∈ items, it.isSourced = true) →
      processItems dbP storeId userId acc items = .ok acc2 →
      acc2.workProducts = acc.workProducts ∧
      acc2.workInventories = acc.workInventories ∧
      ∃ news : List PendingSourced,
        acc2.sourcedToCreate = acc.sourcedToCreate ++ news ∧
        news.length = items.length ∧
        ∀ p ∈ news, p.profit = (p.salePrice - p.sourcingCost) * p.quantity
  | [], acc, acc2, _, h => by
    cases h
    exact ⟨rfl, rfl, [], by simp, rfl, by simp⟩
  | item :: rest, acc, acc2, hall, h => by
    unfold processItems at h
    split at h
    · cases h
    · next acc1 heq =>
      obtain ⟨hwp1, hwi1, p, hp, hprofit⟩ :=
        processItem_sourced (hall item (List.mem_cons_self _ _)) heq
      obtain ⟨hwp2, hwi2, news, hnews, hlen, hprofits⟩ :=
        processItems_sourced (fun it hit => hall it (List.mem_cons_of_mem _ hit)) h
      refine ⟨hwp2.trans hwp1, hwi2.trans hwi1, p :: news, ?_, by simp [hlen], ?_⟩
      · rw [hnews, hp, List.append_assoc]
        rfl
      · intro r hr
        rcases List.mem_cons.mp hr with rfl | hr2
        · exact hprofit
        · exact hprofits r hr2

theorem createSaleTx_ok_inv {db : DB} {req : SaleReq} {userId now : Nat}
    {db2 : DB} {sale : Sale}
    (h : createSaleTx db req userId now = .ok (db2, sale)) :
    ∃ storeId acc, req.storeId = some storeId ∧
      req.items.isEmpty = false ∧
      processItems db.products storeId userId (initAcc db) req.items = .ok acc ∧
      db.sales.any (fun s => s.saleNo == mkSaleNo now db.sales.length) = false ∧
      sale = { saleId := db.nextId, storeId := storeId,
               saleNo := mkSaleNo now db.sales.length, items := acc.saleItems,
               subtotal := acc.subtotal, discount := acc.totalDiscount,
               tax := acc.taxTotal,
               total := acc.subtotal - acc.totalDiscount + acc.taxTotal,
               payments := req.payments, customerId := req.customerId,
               cashierId := userId, status := "completed", notes := none } ∧
      db2 = { products := acc.workProducts, inventories := acc.workInventories,
              sales := db.sales ++ [sale],
              sourcedItems :=
                db.sourcedItems ++ acc.sourcedToCreate.map (mkSourcedDoc db.nextId),
              nextId := db.nextId + 1 } := by
  simp only [createSaleTx] at h
  split at h
  · cases h
  · next storeId hstore =>
    split at h
    · cases h
    · next hne =>
      split at h
      · cases h
      · next acc hacc =>
        split at h
        · cases h
        · next hdup =>
          cases h
          exact ⟨storeId, acc, hstore, eq_false_of_ne_true hne, hacc,
            eq_false_of_ne_true hdup, rfl, rfl⟩

theorem createSale_ok_inv {db : DB} {req : SaleReq} {userId now : Nat}
    {db2 : DB} {sale : Sale}
    (h : createSale db req userId now = (db2, .ok sale)) :
    createSaleTx db req userId now = .ok (db2, sale) := by
  unfold createSale at h
  split at h
  · next d s heq =>
    injection h with h1 h2
    injection h2 with h3
    subst h1
    subst h3
    exact heq
  · next e heq =>
    injection h with h1 h2
    cases h2

theorem createSale_error_fst {db : DB} {req : SaleReq} {userId now : Nat}
    {e : SaleErr} (h : (createSale db req userId now).snd = .error e) :
    (createSale db req userId now).fst = db := by
  unfold createSale at h ⊢
  cases htx : createSaleTx db req userId now with
  | ok pr =>
    obtain ⟨d, s⟩ := pr
    rw [htx] at h
    simp at h
  | error e2 =>
    simp

theorem createSale_snd_error_iff (db : DB) (req : SaleReq) (userId now : Nat)
    (e : SaleErr) :
    ((createSale db req userId now).snd = .error e ↔
      createSaleTx db req userId now = .error e) := by
  unfold createSale
  cases h : createSaleTx db req userId now with
  | ok pr =>
    obtain ⟨d, s⟩ := pr
    simp
  | error e2 =>
    simp

theorem createSaleTx_payments {db : DB} {req : SaleReq} {userId now : Nat}
    (p q : List Payment) (e : SaleErr) :
    (createSaleTx db { req with payments := p } userId now = .error e ↔
     createSaleTx db { req with payments := q } userId now = .error e) := by
  rcases req with ⟨sid, items, pay, cust⟩
  simp only [createSaleTx]
  cases sid with
  | none => simp
  | some s =>
    simp only
    by_cases hne : items.isEmpty
    · simp [hne]
    · simp only [hne, if_false, Bool.false_eq_true]
      cases hpi : processItems db.products s userId (initAcc db) items with
      | error e2 => simp [hpi]
      | ok acc =>
        by_cases hdup :
            db.sales.any (fun t => t.saleNo == mkSaleNo now db.sales.length)
        · simp [hpi, hdup]
        · simp [hpi, hdup]

theorem processItems_single {dbP : List Product} {storeId userId : Nat}
    {acc : TxAcc} {item : ReqItem} :
    processItems dbP storeId userId acc [item] =
      processItem dbP storeId userId acc item := by
  cases h : processItem dbP storeId userId acc item with
  | error e => simp [processItems, h]
  | ok acc2 => simp [processItems, h]

theorem stockStep_error_shape {product : Product} {item : ReqItem}
    {work : List Product} {e : SaleErr}
    (h : stockStep product item work = .error e) :
    ∃ s, product.stock = some s ∧ s < item.quantity ∧
      e = .insufficientStock product.name s item.quantity := by
  unfold stockStep at h
  split at h
  · cases h
  · split at h
    · cases h
    · next s hstock =>
      split at h
      · next hlt =>
        cases h
        exact ⟨s, hstock, hlt, rfl⟩
      · cases h

theorem invStep_error_shape {product : Product} {item : ReqItem} {storeId : Nat}
    {work : List Inventory} {e : SaleErr}
    (h : invStep product item storeId work = .error e) :
    ∃ inv, findInventory work item.productId storeId = some inv ∧
      inv.quantity < item.quantity ∧
      e = .insufficientInventory product.name := by
  unfold invStep at h
  split at h
  · cases h
  · split at h
    · cases h
    · next inv hinv =>
      split at h
      · next hlt =>
        cases h
        exact ⟨inv, hinv, hlt, rfl⟩
      · cases h

theorem createSale_single_priceNotFound
    {db : DB} {req : SaleReq} {userId now storeId : Nat} {item : ReqItem}
    {product : Product}
    (hsid : req.storeId = some storeId) (hitems : req.items = [item])
    (hfind : findProduct db.products item.productId = some product)
    (hact : product.isActive = true) :
    ((createSale db req userId now).snd = .error (.priceNotFound product.name) ↔
      resolveUnitPrice product item = 0) := by
  rw [createSale_snd_error_iff]
  simp only [createSaleTx, hsid, hitems, List.isEmpty_cons, processItems_single,
    processItem, hfind, hact]
  by_cases hz : resolveUnitPrice product item = 0
  · simp [hz]
  · simp only [hz, if_false]
    cases hst : stockStep product item (initAcc db).workProducts with
    | error e =>
      obtain ⟨s, hstock, hlt, rfl⟩ := stockStep_error_shape hst
      simp [hz]
    | ok wp =>
      cases hinv : invStep product item storeId (initAcc db).workInventories with
      | error e =>
        obtain ⟨inv, hiv, hlt, rfl⟩ := invStep_error_shape hinv
        simp [hz]
      | ok wi =>
        by_cases hdup :
            db.sales.any (fun t => t.saleNo == mkSaleNo now db.sales.length)
        · simp [hdup, hz]
        · simp [hdup, hz]

theorem stockStep_ok_of_passes {product : Product} {item : ReqItem}
    {work : List Product} (hsrc : item.isSourced = false)
    (hok : product.stock = none ∨ ∃ s, product.stock = some s ∧ ¬s < item.quantity) :
    ∃ wp, stockStep product item work = .ok wp := by
  rcases hok with hnone | ⟨s, hsome, hge⟩
  · exact ⟨work, by simp [stockStep, hsrc, hnone]⟩
  · exact ⟨saveProduct work { product with stock := some (s - item.quantity) },
      by simp [stockStep, hsrc, hsome, hge]⟩

theorem single_insufficientStock
    {db : DB} {req : SaleReq} {userId now storeId : Nat} {item : ReqItem}
    {product : Product} {s : ℚ}
    (hsid : req.storeId = some storeId) (hitems : req.items = [item])
    (hfind : findProduct db.products item.productId = some product)
    (hact : product.isActive = true)
    (hsrc : item.isSourced = false)
    (hz : resolveUnitPrice product item ≠ 0)
    (hstock : product.stock = some s) (hlt : s < item.quantity) :
    createSale db req userId now =
      (db, .error (.insufficientStock product.name s item.quantity)) := by
  have hst : stockStep product item (initAcc db).workProducts =
      .error (.insufficientStock product.name s item.quantity) := by
    simp [stockStep, hsrc, hstock, hlt]
  have htx : createSaleTx db req userId now =
      .error (.insufficientStock product.name s item.quantity) := by
    simp only [createSaleTx, hsid, hitems, List.isEmpty_cons, processItems_single,
      processItem, hfind, hact, hz, if_false, hst]
    simp
  unfold createSale
  rw [htx]

theorem single_insufficientInventory
    {db : DB} {req : SaleReq} {userId now storeId : Nat} {item : ReqItem}
    {product : Product} {inv : Inventory}
    (hsid : req.storeId = some storeId) (hitems : req.items = [item])
    (hfind : findProduct db.products item.productId = some product)
    (hact : product.isActive = true)
    (hsrc : item.isSourced = false)
    (hz : resolveUnitPrice product item ≠ 0)
    (hok : product.stock = none ∨ ∃ s, product.stock = some s ∧ ¬s < item.quantity)
    (hinv : findInventory db.inventories item.productId storeId = some inv)
    (hlt : inv.quantity < item.quantity) :
    createSale db req userId now =
      (db, .error (.insufficientInventory product.name)) := by
  obtain ⟨wp, hst⟩ :=
    @stockStep_ok_of_passes product item ((initAcc db).workProducts) hsrc hok
  have hiv : invStep product item storeId (initAcc db).workInventories =
      .error (.insufficientInventory product.name) := by
    have hinv2 : findInventory (initAcc db).workInventories item.productId storeId
        = some inv := hinv
    simp [invStep, hsrc, hinv2, hlt]
  have htx : createSaleTx db req userId now =
      .error (.insufficientInventory product.name) := by
    simp only [createSaleTx, hsid, hitems, List.isEmpty_cons, processItems_single,
      processItem, hfind, hact, hz, if_false, hst, hiv]
    simp
  unfold createSale
  rw [htx]

theorem single_noInventory_ok
    {db : DB} {req : SaleReq} {userId now storeId : Nat} {item : ReqItem}
    {product : Product}
    (hsid : req.storeId = some storeId) (hitems : req.items = [item])
    (hfind : findProduct db.products item.productId = some product)
    (hact : product.isActive = true)
    (hsrc : item.isSourced = false)
    (hz : resolveUnitPrice product item ≠ 0)
    (hok : product.stock = none ∨ ∃ s, product.stock = some s ∧ ¬s < item.quantity)
    (hinv : findInventory db.inventories item.productId storeId = none) :
    (∃ sale, (createSale db req userId now).snd = .ok sale) ∨
      (createSale db req userId now).snd =
        .error (.duplicateSaleNo (mkSaleNo now db.sales.length)) := by
  obtain ⟨wp, hst⟩ :=
    @stockStep_ok_of_passes product item ((initAcc db).workProducts) hsrc hok
  have hiv : invStep product item storeId (initAcc db).workInventories =
      .ok (initAcc db).workInventories := by
    have hinv2 : findInventory (initAcc db).workInventories item.productId storeId
        = none := hinv
    simp [invStep, hsrc, hinv2]
  cases htx : createSaleTx db req userId now with
  | ok pr =>
    obtain ⟨d, s⟩ := pr
    left
    refine ⟨s, ?_⟩
    unfold createSale
    rw [htx]
  | error e =>
    right
    have htx2 := htx
    simp only [createSaleTx, hsid, hitems, List.isEmpty_cons, processItems_single,
      processItem, hfind, hact, hz, if_false, hst, hiv] at htx2
    by_cases hdup : db.sales.any (fun t => t.saleNo == mkSaleNo now db.sales.length)
    · simp only [hdup] at htx2
      simp at htx2
      subst htx2
      unfold createSale
      rw [htx]
    · simp [hdup] at htx2

theorem createSale_ok_sales {db : DB} {req : SaleReq} {userId now : Nat}
    {db2 : DB} {sale : Sale}
    (h : createSale db req userId now = (db2, .ok sale)) :
    db2.sales = db.sales ++ [sale] ∧
    sale.saleNo = mkSaleNo now db.sales.length ∧
    ∀ s ∈ db.sales, s.saleNo ≠ sale.saleNo := by
  obtain ⟨sid, acc, _, _, _, hdup, hsale, hdb2⟩ :=
    createSaleTx_ok_inv (createSale_ok_inv h)
  subst hdb2
  refine ⟨rfl, ?_, ?_⟩
  · rw [hsale]
  · intro s hs hno
    have hany : db.sales.any (fun t => t.saleNo == mkSaleNo now db.sales.length) = true := by
      refine List.any_eq_true.mpr ⟨s, hs, ?_⟩
      rw [hno, hsale]
      simp
    rw [hany] at hdup
    cases hdup

/-! ### Concrete executions used by witnesses and counterexamples -/

theorem wRun : createSale wDb wReq 1 5 = (wDb2, .ok wSale) := by
  norm_num [createSale, createSaleTx, processItems, processItem, stockStep, invStep,
    initAcc, findProduct, findInventory, saveProduct, resolveUnitPrice, qTruthy,
    mkSaleNo, wDb, wReq, wItem, wProduct, wDb2, wSale, wSaleItem] <;> decide

theorem wRun2 : createSale wDb2 wReq 2 5 = (wDb3, .ok wSale2) := by
  norm_num [createSale, createSaleTx, processItems, processItem, stockStep, invStep,
    initAcc, findProduct, findInventory, saveProduct, resolveUnitPrice, qTruthy,
    mkSaleNo, wDb2, wDb3, wReq, wItem, wProduct, wSale, wSale2, wSaleItem] <;> decide

theorem sRun : createSale wDb sReq 9 5 = (sDb2, .ok sSale) := by
  norm_num [createSale, createSaleTx, processItems, processItem, stockStep, invStep,
    initAcc, findProduct, findInventory, saveProduct, resolveUnitPrice, qTruthy,
    mkSaleNo, mkSourcedDoc, wDb, sReq, sItem, wProduct, sDb2, sSale, sSaleItem,
    sSourcedRec] <;> decide

theorem zeroRun : createSale wDb zeroReq 1 5 = (zeroDb2, .ok zeroSale) := by
  norm_num [createSale, createSaleTx, processItems, processItem, stockStep, invStep,
    initAcc, findProduct, findInventory, saveProduct, resolveUnitPrice, qTruthy,
    mkSaleNo, wDb, zeroReq, wItem, wProduct, zeroDb2, zeroSale, wSaleItem] <;> decide

theorem payRun : createSale wDb wReqPay 1 5 = (wDb2Pay, .ok wSalePay) := by
  norm_num [createSale, createSaleTx, processItems, processItem, stockStep, invStep,
    initAcc, findProduct, findInventory, saveProduct, resolveUnitPrice, qTruthy,
    mkSaleNo, wDb, wReqPay, wReq, wItem, wProduct, wDb2Pay, wDb2, wSalePay, wSale,
    wSaleItem, wPayment] <;> decide

/-! ### Claim theorems -/

/-- C1: atomicity of sale creation — whenever `createSale` fails (product not
found, inactive product, unresolvable price, insufficient stock, or any later
step before commit), the transaction is aborted: no product stock decrement,
no inventory quantity decrement, no Sale document and no sourced-item record
from the attempt is persisted; the pre-call store is unchanged. -/
theorem c1_sale_creation_atomicity (db : DB) (req : SaleReq) (userId now : Nat)
    (e : SaleErr) (h : (createSale db req userId now).snd = .error e) :
    (createSale db req userId now).fst.products = db.products ∧
    (createSale db req userId now).fst.inventories = db.inventories ∧
    (createSale db req userId now).fst.sales = db.sales ∧
    (createSale db req userId now).fst.sourcedItems = db.sourcedItems := by
  rw [createSale_error_fst h]
  exact ⟨rfl, rfl, rfl, rfl⟩

theorem c1_witness :
    (createSale wDb wReqNoStore 1 5).fst.products = wDb.products ∧
    (createSale wDb wReqNoStore 1 5).fst.inventories = wDb.inventories ∧
    (createSale wDb wReqNoStore 1 5).fst.sales = wDb.sales ∧
    (createSale wDb wReqNoStore 1 5).fst.sourcedItems = wDb.sourcedItems :=
  c1_sale_creation_atomicity wDb wReqNoStore 1 5 .storeRequired (by decide)

/-- C2: non-negativity — running `createSale` on any cart from any store
whose product stock counters and inventory quantities are non-negative never
leaves a product stock counter or an inventory quantity negative: every
decrement is guarded by an available-versus-requested check that aborts the
sale when it fails. -/
theorem c2_nonnegativity (db : DB) (req : SaleReq) (userId now : Nat)
    (h : dbNonneg db) : dbNonneg (createSale db req userId now).fst := by
  cases htx : createSaleTx db req userId now with
  | error e =>
    have hfst : (createSale db req userId now).fst = db := by
      unfold createSale
      rw [htx]
    rw [hfst]
    exact h
  | ok pr =>
    obtain ⟨d, s⟩ := pr
    have hcs : (createSale db req userId now).fst = d := by
      unfold createSale
      rw [htx]
    obtain ⟨sid, acc, _, _, hpi, _, _, hdb2⟩ := createSaleTx_ok_inv htx
    have hnn := processItems_nonneg hpi
      (by simpa [initAcc] using h.1) (by simpa [initAcc] using h.2)
    rw [hcs]
    subst hdb2
    exact ⟨hnn.1, hnn.2⟩

theorem c2_witness : dbNonneg (createSale wDb wReq 1 5).fst :=
  c2_nonnegativity wDb wReq 1 5 (by decide)

/-- C3: amount computation — for every committed sale, each line's tax is
`(unitPrice × quantity − discount) × taxRate / 100` with the product's tax
rate defaulting to 0 when absent, each line's total is
`unitPrice × quantity − discount + tax`, the sale subtotal is the sum of
`unitPrice × quantity` over its lines, its discount and tax are the sums of
the line discounts and taxes, and `total = subtotal − discount + tax`. -/
theorem c3_amount_computation (db : DB) (req : SaleReq) (userId now : Nat)
    (db2 : DB) (sale : Sale)
    (h : createSale db req userId now = (db2, .ok sale)) :
    sale.total = sale.subtotal - sale.discount + sale.tax ∧
    sale.subtotal = (sale.items.map (fun si => si.unitPrice * si.quantity)).sum ∧
    sale.discount = (sale.items.map SaleItem.discount).sum ∧
    sale.tax = (sale.items.map SaleItem.tax).sum ∧
    ∀ si ∈ sale.items, ∃ product,
      findProduct db.products si.productId = some product ∧
      si.tax = (si.unitPrice * si.quantity - si.discount) * product.taxRate.getD 0 / 100 ∧
      si.total = si.unitPrice * si.quantity - si.discount + si.tax := by
  obtain ⟨sid, acc, _, _, hpi, _, hsale, _⟩ :=
    createSaleTx_ok_inv (createSale_ok_inv h)
  obtain ⟨news, hnews, hrel, hsub, hdisc, htax⟩ := processItems_ok_spec hpi
  simp only [initAcc, List.nil_append, zero_add] at hnews hsub hdisc htax
  refine ⟨?_, ?_, ?_, ?_, ?_⟩
  · rw [hsale]
  · rw [hsale]
    show acc.subtotal = (acc.saleItems.map (fun si => si.unitPrice * si.quantity)).sum
    rw [hnews]
    exact hsub
  · rw [hsale]
    show acc.totalDiscount = (acc.saleItems.map SaleItem.discount).sum
    rw [hnews]
    exact hdisc
  · rw [hsale]
    show acc.taxTotal = (acc.saleItems.map SaleItem.tax).sum
    rw [hnews]
    exact htax
  · intro si hsi
    rw [hsale] at hsi
    have hsi2 : si ∈ acc.saleItems := hsi
    rw [hnews] at hsi2
    obtain ⟨ri, hri, product, hfind, hpid, hqty, hup, hne, hdisc2, htax2, htot⟩ :=
      forall2_mem_right hrel si hsi2
    refine ⟨product, ?_, htax2, htot⟩
    rw [hpid]
    exact hfind

theorem c3_witness :
    wSale.total = wSale.subtotal - wSale.discount + wSale.tax ∧
    wSale.subtotal = (wSale.items.map (fun si => si.unitPrice * si.quantity)).sum ∧
    wSale.discount = (wSale.items.map SaleItem.discount).sum ∧
    wSale.tax = (wSale.items.map SaleItem.tax).sum ∧
    ∀ si ∈ wSale.items, ∃ product,
      findProduct wDb.products si.productId = some product ∧
      si.tax = (si.unitPrice * si.quantity - si.discount) * product.taxRate.getD 0 / 100 ∧
      si.total = si.unitPrice * si.quantity - si.discount + si.tax :=
  c3_amount_computation wDb wReq 1 5 wDb2 wSale wRun

/-- C4 (amended): the resolved unit price is the client-supplied override
price when the line is flagged sourced and a *nonzero* override is present;
otherwise, when a variant selector is present and the product's variant list
is nonempty, the selected variant's price if the selector resolves to an
existing variant and zero otherwise (there is no fallback to the base price
for an unresolved selector); otherwise the product's base price; and
`createSale` fails with a pricing error exactly when the price so resolved is
zero or undefined — on success every recorded line carries the nonzero
resolved price. -/
theorem c4_price_resolution_amended :
    (∀ (db : DB) (req : SaleReq) (userId now storeId : Nat) (item : ReqItem)
       (product : Product),
       req.storeId = some storeId → req.items = [item] →
       findProduct db.products item.productId = some product →
       product.isActive = true →
       (((createSale db req userId now).snd = .error (.priceNotFound product.name)) ↔
         resolveUnitPrice product item = 0)) ∧
    (∀ (db : DB) (req : SaleReq) (userId now : Nat) (db2 : DB) (sale : Sale),
       createSale db req userId now = (db2, .ok sale) →
       List.Forall₂
         (fun (ri : ReqItem) (si : SaleItem) => ∃ product,
           findProduct db.products ri.productId = some product ∧
           si.unitPrice = resolveUnitPrice product ri ∧ si.unitPrice ≠ 0)
         req.items sale.items) := by
  constructor
  · intro db req userId now storeId item product hsid hitems hfind hact
    exact createSale_single_priceNotFound hsid hitems hfind hact
  · intro db req userId now db2 sale h
    obtain ⟨sid, acc, _, _, hpi, _, hsale, _⟩ :=
      createSaleTx_ok_inv (createSale_ok_inv h)
    obtain ⟨news, hnews, hrel, _, _, _⟩ := processItems_ok_spec hpi
    simp only [initAcc, List.nil_append] at hnews
    subst hsale
    show List.Forall₂ _ req.items acc.saleItems
    rw [hnews]
    refine hrel.imp ?_
    intro ri si hline
    obtain ⟨product, hfind, hpid, hqty, hup, hne, _, _, _⟩ := hline
    exact ⟨product, hfind, hup, hne⟩

/-- A product that is active but has no determinable price. -/
theorem c4_witness :
    (createSale npDb wReq 1 5).snd = .error (.priceNotFound "P") :=
  (c4_price_resolution_amended.1 npDb wReq 1 5 1 wItem npProduct rfl rfl
    (by decide) rfl).mpr (by decide)

/-- C4 counterexample: with a variant selector that resolves to no existing
variant and a nonzero base price, the claim's resolution order yields the
base price 20 (so no pricing failure should occur), but `createSale` rejects
the line with a pricing error instead of falling back to the base price. -/
theorem c4_counterexample :
    specResolvedPrice varProduct varItem = some 20 ∧
    (createSale varDb varReq 1 5).snd = .error (.priceNotFound "P") := by
  exact ⟨by decide, by decide⟩

/-- C5: sourced isolation — committing a sale whose line items are all
flagged sourced leaves every product stock counter and every inventory
quantity unchanged, and creates exactly one sourced-item record per line,
each holding a back-reference to the created sale and
`profit = (salePrice − sourcingCost) × quantity`. -/
theorem c5_sourced_isolation (db : DB) (req : SaleReq) (userId now : Nat)
    (db2 : DB) (sale : Sale)
    (h : createSale db req userId now = (db2, .ok sale))
    (hall : ∀ it ∈ req.items, it.isSourced = true) :
    db2.products = db.products ∧ db2.inventories = db.inventories ∧
    ∃ recs : List SourcedItemRec,
      db2.sourcedItems = db.sourcedItems ++ recs ∧
      recs.length = req.items.length ∧
      ∀ r ∈ recs, r.saleId = sale.saleId ∧
        r.profit = (r.salePrice - r.sourcingCost) * r.quantity := by
  obtain ⟨sid, acc, _, _, hpi, _, hsale, hdb2⟩ :=
    createSaleTx_ok_inv (createSale_ok_inv h)
  obtain ⟨hwp, hwi, news, hnews, hlen, hprofit⟩ := processItems_sourced hall hpi
  simp only [initAcc, List.nil_append] at hwp hwi hnews
  subst hdb2
  refine ⟨hwp, hwi, news.map (mkSourcedDoc db.nextId), ?_, by simp [hlen], ?_⟩
  · show db.sourcedItems ++ acc.sourcedToCreate.map (mkSourcedDoc db.nextId)
      = db.sourcedItems ++ news.map (mkSourcedDoc db.nextId)
    rw [hnews]
  · intro r hr
    obtain ⟨p, hp, rfl⟩ := List.mem_map.mp hr
    constructor
    · rw [hsale]
      rfl
    · simpa [mkSourcedDoc] using hprofit p hp

theorem c5_witness :
    sDb2.products = wDb.products ∧ sDb2.inventories = wDb.inventories ∧
    ∃ recs : List SourcedItemRec,
      sDb2.sourcedItems = wDb.sourcedItems ++ recs ∧
      recs.length = sReq.items.length ∧
      ∀ r ∈ recs, r.saleId = sSale.saleId ∧
        r.profit = (r.salePrice - r.sourcingCost) * r.quantity :=
  c5_sourced_isolation wDb sReq 9 5 sDb2 sSale sRun (by decide)

/-- C6 (amended): for a non-sourced line, `createSale` fails with an
insufficient-stock error when the requested quantity exceeds the available
quantity on either ledger — the product stock counter, or a per-store
inventory record when one exists.  The product-counter error carries the
available and requested quantities for caller display; the inventory-record
error identifies only the product, with no quantities.  Absence of an
inventory record is not an error. -/
theorem c6_insufficient_stock_amended :
    (∀ (db : DB) (req : SaleReq) (userId now storeId : Nat) (item : ReqItem)
       (product : Product) (s : ℚ),
       req.storeId = some storeId → req.items = [item] →
       findProduct db.products item.productId = some product →
       product.isActive = true → item.isSourced = false →
       resolveUnitPrice product item ≠ 0 →
       product.stock = some s → s < item.quantity →
       createSale db req userId now =
         (db, .error (.insufficientStock product.name s item.quantity))) ∧
    (∀ (db : DB) (req : SaleReq) (userId now storeId : Nat) (item : ReqItem)
       (product : Product) (inv : Inventory),
       req.storeId = some storeId → req.items = [item] →
       findProduct db.products item.productId = some product →
       product.isActive = true → item.isSourced = false →
       resolveUnitPrice product item ≠ 0 →
       (product.stock = none ∨ ∃ s, product.stock = some s ∧ ¬s < item.quantity) →
       findInventory db.inventories item.productId storeId = some inv →
       inv.quantity < item.quantity →
       createSale db req userId now =
         (db, .error (.insufficientInventory product.name))) ∧
    (∀ (db : DB) (req : SaleReq) (userId now storeId : Nat) (item : ReqItem)
       (product : Product),
       req.storeId = some storeId → req.items = [item] →
       findProduct db.products item.productId = some product →
       product.isActive = true → item.isSourced = false →
       resolveUnitPrice product item ≠ 0 →
       (product.stock = none ∨ ∃ s, product.stock = some s ∧ ¬s < item.quantity) →
       findInventory db.inventories item.productId storeId = none →
       (∃ sale, (createSale db req userId now).snd = .ok sale) ∨
         (createSale db req userId now).snd =
           .error (.duplicateSaleNo (mkSaleNo now db.sales.length))) := by
  refine ⟨?_, ?_, ?_⟩
  · intro db req userId now storeId item product s hsid hitems hfind hact hsrc hz
      hstock hlt
    exact single_insufficientStock hsid hitems hfind hact hsrc hz hstock hlt
  · intro db req userId now storeId item product inv hsid hitems hfind hact hsrc hz
      hok hinv hlt
    exact single_insufficientInventory hsid hitems hfind hact hsrc hz hok hinv hlt
  · intro db req userId now storeId item product hsid hitems hfind hact hsrc hz
      hok hinv
    exact single_noInventory_ok hsid hitems hfind hact hsrc hz hok hinv

theorem c6_witness :
    createSale lowDb fiveReq 1 5 =
      (lowDb, .error (.insufficientStock "P" 2 5)) :=
  c6_insufficient_stock_amended.1 lowDb fiveReq 1 5 1
    { wItem with quantity := 5 } { wProduct with stock := some 2 } 2
    rfl rfl (by decide) rfl rfl (by decide) rfl (by decide)

/-- C6 counterexample: when the shortfall is detected on the per-store
inventory record (product stock counter absent, inventory quantity 2,
requested 5), the error is `insufficientInventory "P"` — it names only the
product and carries no available or requested quantity, contrary to the
claim that the insufficient-stock error always includes both. -/
theorem c6_counterexample :
    createSale invDb fiveReq 1 5 = (invDb, .error (.insufficientInventory "P")) := by
  decide

/-- C7 (amended): a create-sale request with a missing store reference or an
empty line-item list fails with a validation error before any stateful work —
the store is returned unchanged and no sale is persisted.  Non-positive line
quantities are not validated: such requests proceed through the normal path
(see the counterexample, where a quantity-0 line commits a sale). -/
theorem c7_validation_amended :
    (∀ (db : DB) (req : SaleReq) (userId now : Nat), req.storeId = none →
       createSale db req userId now = (db, .error .storeRequired)) ∧
    (∀ (db : DB) (req : SaleReq) (userId now storeId : Nat),
       req.storeId = some storeId → req.items = [] →
       createSale db req userId now = (db, .error .itemsRequired)) := by
  constructor
  · intro db req userId now hnone
    have htx : createSaleTx db req userId now = .error .storeRequired := by
      simp [createSaleTx, hnone]
    unfold createSale
    rw [htx]
  · intro db req userId now storeId hsid hempty
    have htx : createSaleTx db req userId now = .error .itemsRequired := by
      simp [createSaleTx, hsid, hempty]
    unfold createSale
    rw [htx]

theorem c7_witness :
    createSale wDb wReqNoStore 1 5 = (wDb, .error .storeRequired) :=
  c7_validation_amended.1 wDb wReqNoStore 1 5 rfl

/-- C7 counterexample: a request whose single line item has quantity 0 (a
non-positive quantity) is not rejected — `createSale` commits and persists a
zero-amount sale, performing the product read-modify-write, contrary to the
claim that such requests fail with a validation error before any stateful
work. -/
theorem c7_counterexample :
    createSale wDb zeroReq 1 5 = (zeroDb2, .ok zeroSale) ∧
    zeroDb2.sales = [zeroSale] :=
  ⟨zeroRun, rfl⟩

/-- C8: sale-number uniqueness — a committed sale's generated number differs
from the number of every sale already committed (enforced by the unique
index on `saleNo` at insert time), so two executions that both commit never
share a number even when generated at the same instant; and when the
generated number collides with an existing sale at commit time, the attempt
surfaces a duplicate-sale-number error to the caller — it is not retried,
and the store is left unchanged. -/
theorem c8_sale_number_uniqueness :
    (∀ (db db1 db2 : DB) (req1 req2 : SaleReq) (u1 u2 n1 n2 : Nat) (s1 s2 : Sale),
       createSale db req1 u1 n1 = (db1, .ok s1) →
       createSale db1 req2 u2 n2 = (db2, .ok s2) →
       s1.saleNo ≠ s2.saleNo) ∧
    (∀ (db : DB) (req : SaleReq) (userId now storeId : Nat) (acc : TxAcc),
       req.storeId = some storeId → req.items.isEmpty = false →
       processItems db.products storeId userId (initAcc db) req.items = .ok acc →
       (∃ s ∈ db.sales, s.saleNo = mkSaleNo now db.sales.length) →
       createSale db req userId now =
         (db, .error (.duplicateSaleNo (mkSaleNo now db.sales.length)))) := by
  constructor
  · intro db db1 db2 req1 req2 u1 u2 n1 n2 s1 s2 h1 h2
    obtain ⟨hsales1, _, _⟩ := createSale_ok_sales h1
    obtain ⟨_, _, hfresh⟩ := createSale_ok_sales h2
    have hmem : s1 ∈ db1.sales := by
      rw [hsales1]
      simp
    exact hfresh s1 hmem
  · intro db req userId now storeId acc hsid hne hpi hcol
    have hdup : db.sales.any (fun t => t.saleNo == mkSaleNo now db.sales.length)
        = true := by
      obtain ⟨s, hs, hno⟩ := hcol
      exact List.any_eq_true.mpr ⟨s, hs, by simp [hno]⟩
    have htx : createSaleTx db req userId now =
        .error (.duplicateSaleNo (mkSaleNo now db.sales.length)) := by
      simp only [createSaleTx, hsid, hpi]
      simp [hne, hdup]
    unfold createSale
    rw [htx]

theorem c8_witness : wSale.saleNo ≠ wSale2.saleNo :=
  c8_sale_number_uniqueness.1 wDb wDb2 wDb3 wReq wReq 1 2 5 5 wSale wSale2
    wRun wRun2

/-- C9 (amended): the sale update operation sets any requested status from
the schema's enumeration `{completed, refunded, partially_refunded}`
regardless of the sale's current status — in particular a refunded or
partially-refunded sale can be moved back to completed (see the
counterexample); any other requested value leaves the status unchanged; the
sale delete operation always sets the status to refunded. -/
theorem c9_status_transitions_amended :
    (∀ (db : DB) (saleId : Nat) (notes : Option String) (st : String)
       (db2 : DB) (s2 : Sale),
       st ≠ "" → allowedStatuses.contains st = true →
       updateSale db saleId notes (some st) = (db2, some s2) →
       s2.status = st) ∧
    (∀ (db : DB) (saleId : Nat) (notes status : Option String)
       (db2 : DB) (s2 sale : Sale),
       findSale db.sales saleId = some sale →
       (strTruthy status && allowedStatuses.contains (status.getD "")) = false →
       updateSale db saleId notes status = (db2, some s2) →
       s2.status = sale.status) ∧
    (∀ (db : DB) (saleId : Nat) (db2 : DB) (s2 : Sale),
       deleteSale db saleId = (db2, some s2) → s2.status = "refunded") := by
  refine ⟨?_, ?_, ?_⟩
  · intro db saleId notes st db2 s2 hne hmem h
    simp only [updateSale] at h
    split at h
    · injection h with h1 h2
      cases h2
    · next sale hfind =>
      have hcond : (strTruthy (some st) &&
          allowedStatuses.contains ((some st).getD "")) = true := by
        simp only [strTruthy, Option.getD_some, hmem, Bool.and_true]
        simpa using hne
      rw [hcond] at h
      simp only [eq_self_iff_true, if_true] at h
      injection h with h1 h2
      injection h2 with h3
      subst h3
      rfl
  · intro db saleId notes status db2 s2 sale hfind2 hcond h
    simp only [updateSale] at h
    split at h
    · injection h with h1 h2
      cases h2
    · next sale1 hfind1 =>
      rw [hfind2] at hfind1
      injection hfind1 with hfind3
      subst hfind3
      rw [hcond] at h
      simp only [Bool.false_eq_true, if_false] at h
      injection h with h1 h2
      injection h2 with h3
      subst h3
      cases notes <;> rfl
  · intro db saleId db2 s2 h
    simp only [deleteSale] at h
    split at h
    · injection h with h1 h2
      cases h2
    · next sale hfind =>
      injection h with h1 h2
      injection h2 with h3
      subst h3
      rfl

theorem c9_witness : refSale2.status = "completed" :=
  c9_status_transitions_amended.1 refDb 0 none "completed" refDb2 refSale2
    (by decide) (by decide) (by decide)

/-- C9 counterexample: `updateSale` moves a sale whose status is `refunded`
back to `completed`, a transition the claimed state machine forbids. -/
theorem c9_counterexample :
    (findSale refDb.sales 0).map Sale.status = some "refunded" ∧
    (updateSale refDb 0 none (some "completed")).snd.map Sale.status =
      some "completed" := by
  exact ⟨by decide, by decide⟩

/-- C10: every sale persisted by `createSale` has status `"completed"`
regardless of the supplied payment allocations — the recorded payments are
stored verbatim (possibly empty) and never compared to the total, so the
outcome of the attempt is independent of the payments field; the status
`"due"` does not belong to the schema's status enumeration and is never
assigned by `createSale`, `updateSale` or `deleteSale`, so the statuses of
all persisted sales remain within
`{completed, refunded, partially_refunded}`. -/
theorem c10_status_completed_payments_ignored :
    (∀ (db : DB) (req : SaleReq) (userId now : Nat) (db2 : DB) (sale : Sale),
       createSale db req userId now = (db2, .ok sale) →
       sale.status = "completed" ∧ sale.payments = req.payments) ∧
    (∀ (db : DB) (req : SaleReq) (userId now : Nat) (p q : List Payment)
       (e : SaleErr),
       ((createSale db { req with payments := p } userId now).snd = .error e ↔
        (createSale db { req with payments := q } userId now).snd = .error e)) ∧
    ("due" ∉ allowedStatuses) ∧
    (∀ (db : DB) (req : SaleReq) (userId now : Nat),
       statusInv db → statusInv (createSale db req userId now).fst) ∧
    (∀ (db : DB) (saleId : Nat) (notes status : Option String),
       statusInv db → statusInv (updateSale db saleId notes status).fst) ∧
    (∀ (db : DB) (saleId : Nat),
       statusInv db → statusInv (deleteSale db saleId).fst) := by
  refine ⟨?_, ?_, by decide, ?_, ?_, ?_⟩
  · intro db req userId now db2 sale h
    obtain ⟨_, _, _, _, _, _, hsale, _⟩ :=
      createSaleTx_ok_inv (createSale_ok_inv h)
    rw [hsale]
    exact ⟨rfl, rfl⟩
  · intro db req userId now p q e
    rw [createSale_snd_error_iff, createSale_snd_error_iff]
    exact createSaleTx_payments p q e
  · intro db req userId now hinv
    cases htx : createSaleTx db req userId now with
    | error e =>
      have hfst : (createSale db req userId now).fst = db := by
        unfold createSale
        rw [htx]
      rw [hfst]
      exact hinv
    | ok pr =>
      obtain ⟨d, s⟩ := pr
      have hfst : (createSale db req userId now).fst = d := by
        unfold createSale
        rw [htx]
      obtain ⟨sid, acc, _, _, _, _, hsale, hdb2⟩ := createSaleTx_ok_inv htx
      rw [hfst]
      subst hdb2
      intro t ht
      rcases List.mem_append.mp ht with hold | hnew
      · exact hinv t hold
      · rw [List.mem_singleton.mp hnew, hsale]
        show "completed" ∈ allowedStatuses
        decide
  · intro db saleId notes status hinv
    simp only [updateSale]
    split
    · exact hinv
    · next sale hfind =>
      intro t ht
      rcases mem_saveSale ht with rfl | hold
      · by_cases hcond : strTruthy status &&
            allowedStatuses.contains (status.getD "")
        · rw [if_pos hcond]
          show (status.getD "") ∈ allowedStatuses
          have hc2 := hcond
          rw [Bool.and_eq_true] at hc2
          simpa using hc2.2
        · rw [if_neg hcond]
          have hstat : sale ∈ db.sales := List.mem_of_find?_eq_some hfind
          have := hinv sale hstat
          cases notes <;> simpa using this
      · exact hinv t hold
  · intro db saleId hinv
    simp only [deleteSale]
    split
    · exact hinv
    · next sale hfind =>
      intro t ht
      rcases mem_saveSale ht with rfl | hold
      · show "refunded" ∈ allowedStatuses
        decide
      · exact hinv t hold

theorem c10_witness :
    wSalePay.status = "completed" ∧ wSalePay.payments = wReqPay.payments :=
  c10_status_completed_payments_ignored.1 wDb wReqPay 1 5 wDb2Pay wSalePay payRun

end POS
